import Mathlib

/-!
# Verification of the Telegram Stars webhook bot

A shallow embedding of the two source files of the repository:
`src/api/telegram.js` (the webhook event handler) and the setWebhook
registration function (`src/unnamed/part_000`).

Modelling conventions:
* JS numbers are modelled exactly.  Every number this program compares,
  renders, or stores is an integer (`Int`): Telegram identifiers and Stars
  amounts.  The one place a non-integral number can arise is `Number`
  applied to a configuration string (e.g. `"1.5"`); such a finite
  non-integral value is represented by its sign only (`JsNum.midFrac`),
  which is sound because the program uses configuration numbers only in
  `> 0`, `=== integer` and truthiness tests, none of which depends on the
  fractional part beyond its sign and nonzeroness.  Double rounding is not
  modelled (exact on this program's integer data).
* `undefined`-able JS values are modelled as `Option`.
* Each `await tg(method, body)` call is an element of a trace
  (`List TgCall`); a call may throw, which the surrounding `try`/`catch`
  turns into abandoning the rest of the handler body.  Which call throws is
  an oracle `Oracle.fail : Nat → Bool`, indexed by the position of the call
  among those attempted during one invocation.  The trace records every
  *attempted* call, including the one that throws.
* Values produced by the outside world (`Date.now()`, `Math.random()`,
  `new Date().toISOString()`, and the JSON-stringified `result` of a
  successful API response, i.e. `safeJsonStringify(bal)` / `tx`) are oracle
  inputs.
-/

namespace TgStars

/-! ## JS string and number primitives used by the source -/

/-- The whitespace characters recognised by the JS `Number(string)`
conversion and `String.prototype.trim`, restricted to the ASCII range (the
program never feeds non-ASCII whitespace to either). -/
def isJsSpace (c : Char) : Bool :=
  c = ' ' || c = '\t' || c = '\n' || c = '\r' || c.toNat = 11 || c.toNat = 12

/-- Trim JS whitespace from both ends of a character list. -/
def trimJs (cs : List Char) : List Char :=
  ((cs.dropWhile isJsSpace).reverse.dropWhile isJsSpace).reverse

/-- `String.prototype.trim`. -/
def jsTrim (s : String) : String := String.mk (trimJs s.toList)

/-- `Array.prototype.join(sep)` on a list of strings. -/
def joinWith (sep : String) : List String → String
  | [] => ""
  | [x] => x
  | x :: xs => x ++ sep ++ joinWith sep xs

/-- `String.prototype.split(sep)` for a one-character separator, on the
underlying character list (agrees with JS `split` for single-character
separators). -/
def splitOnChar (sep : Char) : List Char → List (List Char)
  | [] => [[]]
  | c :: rest =>
    if c = sep then [] :: splitOnChar sep rest
    else
      match splitOnChar sep rest with
      | [] => [[c]]
      | g :: gs => (c :: g) :: gs

/-- `String.prototype.startsWith(p)` as structural recursion on the
character lists. -/
def listStarts : List Char → List Char → Bool
  | _, [] => true
  | [], _ :: _ => false
  | c :: cs, d :: ds => c = d && listStarts cs ds

/-- `s.startsWith(p)` of JS. -/
def strStarts (s p : String) : Bool := listStarts s.toList p.toList

/-- The value of a JS number as far as this program can observe it: a
finite integral value, a finite non-integral value (sign only, never
zero), a signed infinity, or NaN. -/
inductive JsNum where
  | int (n : Int)
  | midFrac (neg : Bool)
  | inf (neg : Bool)
  | nan
deriving DecidableEq

/-- `Number.isFinite`. -/
def jsFinite : JsNum → Bool
  | .int _ => true
  | .midFrac _ => true
  | _ => false

/-- A finite JS number (what `numEnv` can return). -/
inductive JsFin where
  | int (n : Int)
  | midFrac (neg : Bool)
deriving DecidableEq

/-- `x > 0` on a finite JS number. -/
def JsFin.pos : JsFin → Bool
  | .int n => 0 < n
  | .midFrac neg => !neg

/-- JS truthiness of a finite JS number (`0` is the only falsy finite
number besides `-0`, which is the same value here). -/
def JsFin.truthy : JsFin → Bool
  | .int n => n != 0
  | .midFrac _ => true

/-- `x === u` between a finite JS number and an integer. -/
def JsFin.eqInt : JsFin → Int → Bool
  | .int n, m => n == m
  | .midFrac _, _ => false

/-- Value of a list of decimal digits. -/
def digitsToNat (cs : List Char) : Nat :=
  cs.foldl (fun a c => 10 * a + (c.toNat - 48)) 0

/-- Value of one hexadecimal digit. -/
def hexDigitVal (c : Char) : Option Nat :=
  if c.isDigit then some (c.toNat - 48)
  else if 'a' ≤ c ∧ c ≤ 'f' then some (c.toNat - 87)
  else if 'A' ≤ c ∧ c ≤ 'F' then some (c.toNat - 55)
  else none

/-- Value of one octal digit. -/
def octDigitVal (c : Char) : Option Nat :=
  if '0' ≤ c ∧ c ≤ '7' then some (c.toNat - 48) else none

/-- Value of one binary digit. -/
def binDigitVal (c : Char) : Option Nat :=
  if c = '0' ∨ c = '1' then some (c.toNat - 48) else none

/-- Value of a nonempty digit string in a given radix; `none` when a
character is not a digit of that radix or the string is empty. -/
def radixNat (digit : Char → Option Nat) (radix : Nat) (cs : List Char) : Option Nat :=
  match cs with
  | [] => none
  | _ =>
    cs.foldl
      (fun acc c =>
        match acc, digit c with
        | some a, some d => some (radix * a + d)
        | _, _ => none)
      (some 0)

/-- Decompose an unsigned decimal JS numeric literal
(`digits [. digits] [e [sign] digits]`, also `.digits`) into
mantissa `m`, fractional length `k` and exponent `e`, denoting the value
`m / 10^k * 10^e`; `none` when the string is not of that shape (JS gives
NaN). -/
def parseDecParts (cs0 : List Char) : Option (Nat × Nat × Int) :=
  let cs := cs0.map fun c => if c = 'E' then 'e' else c
  let ipr := cs.span Char.isDigit
  let fpr :=
    match ipr.2 with
    | '.' :: rest => rest.span Char.isDigit
    | _ => ([], ipr.2)
  if ipr.1.isEmpty && fpr.1.isEmpty then none
  else
    let m := digitsToNat ipr.1 * 10 ^ fpr.1.length + digitsToNat fpr.1
    let k := fpr.1.length
    match fpr.2 with
    | [] => some (m, k, 0)
    | 'e' :: rest =>
      let sr : Bool × List Char :=
        match rest with
        | '+' :: t => (false, t)
        | '-' :: t => (true, t)
        | t => (false, t)
      let er := sr.2.span Char.isDigit
      if er.1.isEmpty || !er.2.isEmpty then none
      else some (m, k, if sr.1 then -(digitsToNat er.1 : Int) else (digitsToNat er.1 : Int))
    | _ => none

/-- The exact value `± m / 10^k * 10^e` as an observable JS number. -/
def decValue (neg : Bool) (m k : Nat) (e : Int) : JsNum :=
  let shift := e - (k : Int)
  let sgn : Int := if neg then -1 else 1
  if 0 ≤ shift then .int (sgn * (m : Int) * 10 ^ shift.toNat)
  else
    let d := 10 ^ (-shift).toNat
    if m % d = 0 then .int (sgn * ((m / d : Nat) : Int))
    else .midFrac neg

/-- Parse an optionally signed decimal JS numeric literal or `Infinity`. -/
def decSigned (cs : List Char) : JsNum :=
  let sb : Bool × List Char :=
    match cs with
    | '-' :: t => (true, t)
    | '+' :: t => (false, t)
    | t => (false, t)
  if sb.2 = ['I', 'n', 'f', 'i', 'n', 'i', 't', 'y'] then .inf sb.1
  else
    match parseDecParts sb.2 with
    | some (m, k, e) => decValue sb.1 m k e
    | none => .nan

/-- The JS `Number(string)` conversion (`ToNumber` applied to a string):
trim whitespace, empty string is `0`, then a signed decimal literal,
`Infinity`, or an (unsigned) `0x`/`0o`/`0b` radix literal; anything else is
NaN. -/
def jsStringToNum (s : String) : JsNum :=
  let cs := trimJs s.toList
  match cs with
  | [] => .int 0
  | '0' :: c :: rest =>
    if c = 'x' ∨ c = 'X' then
      match radixNat hexDigitVal 16 rest with
      | some n => .int n
      | none => .nan
    else if c = 'o' ∨ c = 'O' then
      match radixNat octDigitVal 8 rest with
      | some n => .int n
      | none => .nan
    else if c = 'b' ∨ c = 'B' then
      match radixNat binDigitVal 2 rest with
      | some n => .int n
      | none => .nan
    else decSigned cs
  | _ => decSigned cs

/-- Rendering of a JS number in a template literal (exact for the integral
values this program renders: Telegram identifiers and Stars amounts). -/
def jsIntToString (n : Int) : String := toString n

/-- `numEnv(name, def)` of `src/api/telegram.js`: read an environment
variable (`none` = unset), treat unset or empty as the default, convert
with `Number` and keep the value only when `Number.isFinite` holds. -/
def numEnv (v : Option String) (d : Int) : JsFin :=
  match v with
  | none => .int d
  | some s =>
    if s = "" then .int d
    else
      match jsStringToNum s with
      | .int n => .int n
      | .midFrac b => .midFrac b
      | _ => .int d

/-! ## Data model: the inbound Telegram update (`req.body`) -/

/-- A Telegram user as read by the handler (`from`).  Telegram identifiers
are integers; optional fields may be absent. -/
structure User where
  id : Int
  username : Option String
  first_name : Option String
  last_name : Option String
deriving DecidableEq

/-- The chat a message belongs to (`message.chat`). -/
structure Chat where
  id : Int
deriving DecidableEq

/-- `message.successful_payment`. -/
structure SuccessfulPayment where
  total_amount : Int
  invoice_payload : String
  telegram_payment_charge_id : String
deriving DecidableEq

/-- A Telegram message as read by the handler.  `chat` is mandatory in the
platform schema (the code accesses `update.message.chat.id` without a
guard); `from` is optional (`fromUser` here, since `from` is reserved in
Lean). -/
structure Message where
  chat : Chat
  fromUser : Option User
  text : Option String
  successful_payment : Option SuccessfulPayment
deriving DecidableEq

/-- `update.pre_checkout_query`. -/
structure PreCheckoutQuery where
  id : String
deriving DecidableEq

/-- `update.callback_query`; `message` may be absent, which is why the code
reads `cq.message?.chat?.id`. -/
structure CallbackQuery where
  id : String
  data : Option String
  message : Option Message
deriving DecidableEq

/-- One inbound update (`req.body`). -/
structure Update where
  pre_checkout_query : Option PreCheckoutQuery
  message : Option Message
  callback_query : Option CallbackQuery
deriving DecidableEq

/-! ## Outbound calls and the handler's environment -/

/-- One button of an inline keyboard. -/
structure Button where
  text : String
  callback_data : String
deriving DecidableEq

/-- `reply_markup` of `sendMessage`. -/
structure Keyboard where
  inline_keyboard : List (List Button)
deriving DecidableEq

/-- One price line item of `sendInvoice`. -/
structure Price where
  label : String
  amount : Int
deriving DecidableEq

/-- One outbound Telegram API call (`await tg(method, body)`), with the
body fields the source passes.  Chat identifiers are `JsFin` because the
log destination comes from configuration; identifiers taken from the
update are integral. -/
inductive TgCall where
  | answerPreCheckoutQuery (pre_checkout_query_id : String) (ok : Bool)
  | sendMessage (chat_id : JsFin) (text : String) (reply_markup : Option Keyboard)
  | getMyStarBalance
  | getStarTransactions (limit : Nat)
  | answerCallbackQuery (callback_query_id : String) (text : Option String)
  | sendInvoice (chat_id : Int) (title description payload provider_token currency : String)
      (prices : List Price)
deriving DecidableEq

/-- The configuration the handler reads at module load:
`ADMIN_USER_ID = numEnv("ADMIN_USER_ID", 0)` and
`LOG_CHAT_ID = numEnv("LOG_CHAT_ID", 0)`. -/
structure Env where
  adminUserId : JsFin
  logChatId : JsFin

/-- Oracle for the outside world during one invocation: whether the `i`-th
attempted API call throws, the JSON-stringified `result` of the `i`-th
call when it succeeds, `Date.now()`, the hex tail of `Math.random()`, and
`new Date().toISOString()`. -/
structure Oracle where
  fail : Nat → Bool
  result : Nat → String
  now : Nat
  rand : String
  nowISO : String

/-- The fixed list of allowed donation amounts (`AMOUNTS`). -/
def AMOUNTS : List Int := [500, 1000, 1500, 2000, 3000, 4000, 5000]

/-- `isAdmin(userId)`: `ADMIN_USER_ID > 0 && userId === ADMIN_USER_ID`,
with the module constant passed explicitly and `userId` possibly
`undefined` (`update.message.from?.id`). -/
def isAdmin (adminUserId : JsFin) (userId : Option Int) : Bool :=
  adminUserId.pos &&
    (match userId with
     | some u => adminUserId.eqInt u
     | none => false)

/-- One donation button: `{text: amount + " ⭐", callback_data: "donate:" + amount}`. -/
def donateButton (a : Int) : Button :=
  ⟨jsIntToString a ++ " ⭐", "donate:" ++ jsIntToString a⟩

/-- The row grouping of `donateKeyboard`: `AMOUNTS.slice(i, i + 2)` for
`i = 0, 2, 4, ...`. -/
def pairRows : List Int → List (List Button)
  | [] => []
  | [a] => [[donateButton a]]
  | a :: b :: rest => [donateButton a, donateButton b] :: pairRows rest

/-- `donateKeyboard()`. -/
def donateKeyboard : Keyboard := ⟨pairRows AMOUNTS⟩

/-- The parsed and validated donation amount of a callback token:
`Number(data.split(":")[1])` kept only when `AMOUNTS.includes` it (a
non-integral, infinite or NaN value is never a member). -/
def donateAmount (data : String) : Option Int :=
  match (splitOnChar ':' data.toList).get? 1 with
  | none => none
  | some part =>
    match jsStringToNum (String.mk part) with
    | .int n => if n ∈ AMOUNTS then some n else none
    | _ => none

/-- Keep the strings that JS `filter(Boolean)` keeps: present and
nonempty. -/
def presentParts (parts : List (Option String)) : List String :=
  parts.foldr
    (fun p acc =>
      match p with
      | some s => if s = "" then acc else s :: acc
      | none => acc)
    []

/-- The text of the payment log message sent to `LOG_CHAT_ID`. -/
def paymentLogText (o : Oracle) (msg : Message) (sp : SuccessfulPayment) : String :=
  let username :=
    match msg.fromUser with
    | some u =>
      match u.username with
      | some un => if un = "" then "" else "@" ++ un
      | none => ""
    | none => ""
  let name :=
    match msg.fromUser with
    | some u => jsTrim (joinWith " " (presentParts [u.first_name, u.last_name]))
    | none => ""
  let userIdStr :=
    match msg.fromUser with
    | some u => jsIntToString u.id
    | none => "undefined"
  joinWith "\n"
    ["💫 Stars payment received",
     "from: " ++ jsTrim (joinWith " " (presentParts [some name, some username])),
     "user_id: " ++ userIdStr,
     "amount: " ++ jsIntToString sp.total_amount ++ " ⭐",
     "payload: " ++ sp.invoice_payload,
     "charge_id: " ++ sp.telegram_payment_charge_id,
     "date: " ++ o.nowISO]

/-- The thank-you reply text of the successful-payment branch. -/
def thankText (sp : SuccessfulPayment) : String :=
  "✅ Получено " ++ jsIntToString sp.total_amount ++ " ⭐ Спасибо!"

/-- Branch 2 of the dispatch (`successful_payment`): thank the payer,
then, when a log destination is configured, send the log line.  The
thank-you is awaited first; when it throws, the `catch` ends the handler
and the log call is never attempted. -/
def paymentBranch (env : Env) (o : Oracle) (msg : Message) (sp : SuccessfulPayment) :
    List TgCall :=
  let thank := TgCall.sendMessage (.int msg.chat.id) (thankText sp) none
  if o.fail 0 then [thank]
  else if env.logChatId.truthy then
    [thank, .sendMessage env.logChatId (paymentLogText o msg sp) none]
  else [thank]

/-- Branch 3 of the dispatch (text commands). -/
def textBranch (env : Env) (o : Oracle) (msg : Message) (t : String) : List TgCall :=
  let chatId : JsFin := .int msg.chat.id
  let userId := msg.fromUser.map User.id
  if t = "/start" ∨ strStarts t "/donate" = true then
    [.sendMessage chatId "Выбери сумму поддержки в Telegram Stars:" (some donateKeyboard)]
  else if strStarts t "/balance" = true then
    if isAdmin env.adminUserId userId = false then
      [.sendMessage chatId "⛔️ Только для админа" none]
    else if o.fail 0 then [.getMyStarBalance]
    else
      [.getMyStarBalance,
       .sendMessage chatId ("⭐️ Баланс Stars:\n" ++ o.result 0) none]
  else if strStarts t "/tx" = true then
    if isAdmin env.adminUserId userId = false then
      [.sendMessage chatId "⛔️ Только для админа" none]
    else if o.fail 0 then [.getStarTransactions 10]
    else
      [.getStarTransactions 10,
       .sendMessage chatId ("🧾 Последние транзакции Stars:\n" ++ o.result 0) none]
  else []

/-- The invoice payload:
`donate_${amount}_${Date.now()}_${Math.random().toString(16).slice(2)}`. -/
def invoicePayload (o : Oracle) (a : Int) : String :=
  "donate_" ++ jsIntToString a ++ "_" ++ toString o.now ++ "_" ++ o.rand

/-- Branch 4 of the dispatch (`callback_query`).  The branch acts only
when the data starts with `donate:` *and* the chat identifier is truthy;
a non-member amount is refused with a visible `answerCallbackQuery`; a
member amount is acknowledged without text and then invoiced (when the
acknowledgment throws, the invoice is never attempted). -/
def cqBranch (o : Oracle) : Option CallbackQuery → List TgCall
  | none => []
  | some cq =>
    let data := cq.data.getD ""
    match cq.message with
    | none => []
    | some m =>
      if strStarts data "donate:" = true ∧ m.chat.id ≠ 0 then
        match donateAmount data with
        | none => [.answerCallbackQuery cq.id (some "Неверная сумма")]
        | some a =>
          if o.fail 0 then [.answerCallbackQuery cq.id none]
          else
            [.answerCallbackQuery cq.id none,
             .sendInvoice m.chat.id "Поддержка проекта"
               ("Спасибо! Поддержка на " ++ jsIntToString a ++ " Stars.")
               (invoicePayload o a) "" "XTR" [⟨"Support", a⟩]]
      else []

/-- The dispatch of `module.exports` in `src/api/telegram.js`, after the
transport preamble has already answered 200: the trace of attempted
outbound API calls for one update.  Branch order follows the source:
`pre_checkout_query` first, then `message?.successful_payment`, then
`message?.text` (an empty text is falsy and falls through), then
`callback_query`. -/
def handleUpdate (env : Env) (o : Oracle) (u : Update) : List TgCall :=
  match u.pre_checkout_query with
  | some pcq => [.answerPreCheckoutQuery pcq.id true]
  | none =>
    match u.message with
    | some msg =>
      match msg.successful_payment with
      | some sp => paymentBranch env o msg sp
      | none =>
        match msg.text with
        | some t => if t = "" then cqBranch o u.callback_query else textBranch env o msg t
        | none => cqBranch o u.callback_query
    | none => cqBranch o u.callback_query

/-- The intents of the specification's Event Classifier, as realized by
the dispatch conditions of `module.exports`. -/
inductive Intent where
  | confirmPreCheckout
  | acknowledgePayment
  | showMenu
  | balanceQuery
  | txQuery
  | createInvoice (a : Int)
  | rejectInvoice
  | unrecognized
deriving DecidableEq

/-- The classification of a callback query, following the conditions of
branch 4 of the dispatch. -/
def classifyCq : Option CallbackQuery → Intent
  | none => .unrecognized
  | some cq =>
    let data := cq.data.getD ""
    match cq.message with
    | none => .unrecognized
    | some m =>
      if strStarts data "donate:" = true ∧ m.chat.id ≠ 0 then
        match donateAmount data with
        | none => .rejectInvoice
        | some a => .createInvoice a
      else .unrecognized

/-- The Event Classifier: the dispatch conditions of `module.exports`,
factored out of the call-issuing code. -/
def classify (u : Update) : Intent :=
  match u.pre_checkout_query with
  | some _ => .confirmPreCheckout
  | none =>
    match u.message with
    | some msg =>
      match msg.successful_payment with
      | some _ => .acknowledgePayment
      | none =>
        match msg.text with
        | some t =>
          if t = "" then classifyCq u.callback_query
          else if t = "/start" ∨ strStarts t "/donate" = true then .showMenu
          else if strStarts t "/balance" = true then .balanceQuery
          else if strStarts t "/tx" = true then .txQuery
          else .unrecognized
        | none => classifyCq u.callback_query
    | none => classifyCq u.callback_query

/-! ## The registration operation (setWebhook function) -/

/-- JS `a || b` on an `undefined`-able string (`undefined` and `""` are
falsy). -/
def jsOrOpt (a b : Option String) : Option String :=
  match a with
  | some s => if s = "" then b else some s
  | none => b

/-- Rendering of an `undefined`-able string in a template literal. -/
def optTemplate : Option String → String
  | some s => s
  | none => "undefined"

/-- Configuration of the registration function: `BOT_TOKEN` (undefinable),
`WEBHOOK_SECRET = process.env.WEBHOOK_SECRET || ""` and
`SETUP_KEY = process.env.SETUP_KEY || ""`. -/
structure RegEnv where
  botToken : Option String
  webhookSecret : String
  setupKey : String

/-- The request the registration function reads: `req.query?.key` and the
`x-forwarded-host`, `host` and `x-forwarded-proto` headers. -/
structure RegRequest where
  queryKey : Option String
  xForwardedHost : Option String
  host : Option String
  xForwardedProto : Option String

/-- The body of the one `setWebhook` call. -/
structure SetWebhookCall where
  url : String
  secret_token : Option String
  drop_pending_updates : Bool
deriving DecidableEq

/-- The HTTP response of the registration function.  The text of the
error response (`Error: ...`) is elided; the success body is kept
verbatim. -/
inductive RegOutcome where
  | missingToken
  | forbidden
  | success (body : String)
  | failure
deriving DecidableEq

/-- The externally reachable URL the registration function computes:
`(x-forwarded-proto || "https") + "://" + (x-forwarded-host || host) +
"/api/telegram"`. -/
def computedUrl (req : RegRequest) : String :=
  optTemplate (jsOrOpt req.xForwardedProto (some "https")) ++ "://" ++
    optTemplate (jsOrOpt req.xForwardedHost req.host) ++ "/api/telegram"

/-- `module.exports` of the setWebhook function: the response and the
trace of attempted `setWebhook` calls, given whether the call throws
(`fail`) and the JSON-stringified registration result (`res`). -/
def setWebhookFn (env : RegEnv) (req : RegRequest) (fail : Bool) (res : String) :
    RegOutcome × List SetWebhookCall :=
  match env.botToken with
  | none => (.missingToken, [])
  | some tok =>
    if tok = "" then (.missingToken, [])
    else
      let key := req.queryKey.getD ""
      if env.setupKey = "" ∨ key ≠ env.setupKey then (.forbidden, [])
      else
        let url := computedUrl req
        let call : SetWebhookCall :=
          ⟨url, if env.webhookSecret = "" then none else some env.webhookSecret, true⟩
        if fail then (.failure, [call])
        else
          (.success ("Webhook set OK\nURL: " ++ url ++ "\nResult: " ++ res), [call])

/-! ## Theorems for the claims -/

/-- C1: for every inbound event carrying a pre-authorization query, the
handler makes exactly one outbound call — `answerPreCheckoutQuery` with
`ok: true`, no authorization check and no reply text — and, the
pre-checkout branch being first in the dispatch, it is the only and first
call attempted for the event, whatever else the update carries. -/
theorem c1_preCheckout_single_call (env : Env) (o : Oracle) (u : Update)
    (pcq : PreCheckoutQuery) (h : u.pre_checkout_query = some pcq) :
    handleUpdate env o u = [.answerPreCheckoutQuery pcq.id true] := by
  obtain ⟨p, m, c⟩ := u
  cases h
  rfl

/-- Witness for C1 at a concrete pre-checkout update. -/
theorem c1_witness :
    handleUpdate ⟨.int 0, .int 0⟩ ⟨fun _ => false, fun _ => "", 0, "", ""⟩
        ⟨some ⟨"q1"⟩, none, none⟩ = [.answerPreCheckoutQuery "q1" true] :=
  c1_preCheckout_single_call _ _ _ ⟨"q1"⟩ rfl

/-- C5 as stated is false: the configured identifier `-5` (reachable, since
`numEnv` accepts any finite number) is set and non-zero and equals the
acting user's identifier, yet `isAdmin` returns `false` — the code requires
the configured identifier to be positive, not merely non-zero. -/
theorem c5_counterexample :
    numEnv (some "-5") 0 = .int (-5) ∧ (JsFin.int (-5) ≠ .int 0) ∧
      isAdmin (.int (-5)) (some (-5)) = false :=
  ⟨rfl, by decide, rfl⟩

/-- C5 amended: the privileged check returns true iff the configured
privileged-user identifier is a *positive* integer and equals the acting
user's identifier; there are no other capability tiers. -/
theorem c5_amended (adminUserId : JsFin) (userId : Option Int) :
    isAdmin adminUserId userId = true ↔
      ∃ n : Int, adminUserId = .int n ∧ 0 < n ∧ userId = some n := by
  cases adminUserId with
  | int n =>
    cases userId with
    | some u =>
      simp only [isAdmin, JsFin.pos, JsFin.eqInt, Bool.and_eq_true, decide_eq_true_eq,
        beq_iff_eq, JsFin.int.injEq, Option.some.injEq]
      constructor
      · rintro ⟨hpos, hu⟩
        exact ⟨n, rfl, hpos, hu.symm⟩
      · rintro ⟨n', hn', hpos, hu⟩
        cases hn'
        exact ⟨hpos, hu.symm⟩
    | none => simp [isAdmin]
  | midFrac b =>
    cases userId with
    | some u => simp [isAdmin, JsFin.eqInt]
    | none => simp [isAdmin]

/-- C7 as stated is false: `/start` does produce exactly one reply carrying
the donation grid, but the grid has seven amounts, not six, and its last
row holds a single button rather than two. -/
theorem c7_counterexample :
    handleUpdate ⟨.int 0, .int 0⟩ ⟨fun _ => false, fun _ => "", 0, "", ""⟩
        ⟨none, some ⟨⟨5⟩, none, some "/start", none⟩, none⟩ =
      [.sendMessage (.int 5) "Выбери сумму поддержки в Telegram Stars:"
        (some donateKeyboard)] ∧
    donateKeyboard.inline_keyboard.map List.length = [2, 2, 2, 1] ∧
    (donateKeyboard.inline_keyboard.map List.length).sum ≠ 6 :=
  ⟨rfl, rfl, by decide⟩

/-- C7 amended: for every inbound text `/start` (or any text beginning with
`/donate`), the handler sends exactly one reply containing the seven-amount
grid of allowed donation amounts, two per row with a final single-element
row, in ascending amount order, each choice's action token encoding
`donate:<amount>`. -/
theorem c7_amended (env : Env) (o : Oracle) (msg : Message) (t : String)
    (cqa : Option CallbackQuery)
    (hsp : msg.successful_payment = none) (ht : msg.text = some t)
    (hne : t ≠ "") (hcmd : t = "/start" ∨ strStarts t "/donate" = true) :
    handleUpdate env o ⟨none, some msg, cqa⟩ =
      [.sendMessage (.int msg.chat.id) "Выбери сумму поддержки в Telegram Stars:"
        (some donateKeyboard)] ∧
    donateKeyboard =
      ⟨[[⟨"500 ⭐", "donate:500"⟩, ⟨"1000 ⭐", "donate:1000"⟩],
        [⟨"1500 ⭐", "donate:1500"⟩, ⟨"2000 ⭐", "donate:2000"⟩],
        [⟨"3000 ⭐", "donate:3000"⟩, ⟨"4000 ⭐", "donate:4000"⟩],
        [⟨"5000 ⭐", "donate:5000"⟩]]⟩ := by
  constructor
  · simp only [handleUpdate, hsp, ht, if_neg hne, textBranch, if_pos hcmd]
  · rfl

/-- Witness for C7's amended theorem at a concrete `/start` update. -/
theorem c7_witness :
    handleUpdate ⟨.int 0, .int 0⟩ ⟨fun _ => false, fun _ => "", 0, "", ""⟩
        ⟨none, some ⟨⟨9⟩, none, some "/donate now", none⟩, none⟩ =
      [.sendMessage (.int 9) "Выбери сумму поддержки в Telegram Stars:"
        (some donateKeyboard)] :=
  (c7_amended ⟨.int 0, .int 0⟩ ⟨fun _ => false, fun _ => "", 0, "", ""⟩
    ⟨⟨9⟩, none, some "/donate now", none⟩ "/donate now" none
    rfl rfl (by decide) (Or.inr rfl)).1

/-- C10: a privileged-user or log-destination configuration value that is
absent, empty, or not convertible to a finite number degrades to `0`
without an error; the privileged check then refuses every user, and a
successful-payment event produces only the thank-you call — the payment log
message (built only in that branch) is never sent. -/
theorem c10_malformed_config_defaults (v : Option String)
    (h : v = none ∨ v = some "" ∨
      ∃ s, v = some s ∧ jsFinite (jsStringToNum s) = false) :
    numEnv v 0 = .int 0 ∧
    (∀ userId, isAdmin (numEnv v 0) userId = false) ∧
    (∀ (a : JsFin) (o : Oracle) (msg : Message) (sp : SuccessfulPayment)
      (cqa : Option CallbackQuery), msg.successful_payment = some sp →
      handleUpdate ⟨a, numEnv v 0⟩ o ⟨none, some msg, cqa⟩ =
        [.sendMessage (.int msg.chat.id) (thankText sp) none]) := by
  have hz : numEnv v 0 = .int 0 := by
    rcases h with h | h | ⟨s, hs, hfin⟩
    · rw [h]; rfl
    · rw [h]; rfl
    · rw [hs]
      unfold numEnv
      by_cases hse : s = ""
      · simp [hse]
      · simp only [if_neg hse]
        cases hj : jsStringToNum s with
        | int n => rw [hj] at hfin; exact absurd hfin (by simp [jsFinite])
        | midFrac b => rw [hj] at hfin; exact absurd hfin (by simp [jsFinite])
        | inf b => rfl
        | nan => rfl
  refine ⟨hz, ?_, ?_⟩
  · intro userId
    rw [hz]
    rfl
  · intro a o msg sp cqa hsp
    rw [hz]
    simp only [handleUpdate, hsp, paymentBranch]
    cases hf : o.fail 0 with
    | true => simp [hf]
    | false => simp [hf, JsFin.truthy]

/-- Witness for C10 at the concrete unparseable value `"abc"`. -/
theorem c10_witness :
    numEnv (some "abc") 0 = .int 0 ∧
    isAdmin (numEnv (some "abc") 0) (some 7) = false :=
  ⟨(c10_malformed_config_defaults (some "abc")
      (Or.inr (Or.inr ⟨"abc", rfl, rfl⟩))).1,
   (c10_malformed_config_defaults (some "abc")
      (Or.inr (Or.inr ⟨"abc", rfl, rfl⟩))).2.1 (some 7)⟩

/-- C2 as stated is false: with a log destination configured (`777`), a
successful-payment event whose thank-you call throws produces only one
outbound call — the log call is never attempted, because the two effects
are sequential awaits under a single catch.  This falsifies both "exactly
two outbound calls are produced" and "failure of the thank-you call does
not prevent the log call". -/
theorem c2_counterexample :
    JsFin.truthy (.int 777) = true ∧
    (handleUpdate ⟨.int 7, .int 777⟩ ⟨fun i => i == 0, fun _ => "", 0, "", ""⟩
        ⟨none, some ⟨⟨5⟩, none, none, some ⟨500, "pl", "ch"⟩⟩, none⟩).length = 1 :=
  ⟨rfl, rfl⟩

/-- C2 amended: a successful-payment event produces the thank-you call
and, when a log destination is configured *and the thank-you call does not
throw*, the log call (two calls in that case); with no log destination
exactly the thank-you; the log call's own failure never prevents the
thank-you (which is attempted first), but a thank-you failure does prevent
the log call; in every case the failure is caught and not fatal to the
request. -/
theorem c2_amended (env : Env) (o : Oracle) (msg : Message) (sp : SuccessfulPayment)
    (cqa : Option CallbackQuery) (hsp : msg.successful_payment = some sp) :
    (o.fail 0 = false → env.logChatId.truthy = true →
      handleUpdate env o ⟨none, some msg, cqa⟩ =
        [.sendMessage (.int msg.chat.id) (thankText sp) none,
         .sendMessage env.logChatId (paymentLogText o msg sp) none]) ∧
    (env.logChatId.truthy = false →
      handleUpdate env o ⟨none, some msg, cqa⟩ =
        [.sendMessage (.int msg.chat.id) (thankText sp) none]) ∧
    (o.fail 0 = true →
      handleUpdate env o ⟨none, some msg, cqa⟩ =
        [.sendMessage (.int msg.chat.id) (thankText sp) none]) := by
  refine ⟨?_, ?_, ?_⟩
  · intro hf hl
    simp [handleUpdate, hsp, paymentBranch, hf, hl]
  · intro hl
    simp [handleUpdate, hsp, paymentBranch, hl]
  · intro hf
    simp [handleUpdate, hsp, paymentBranch, hf]

/-- Witness for C2's amended theorem: both payment calls at a concrete
update with logging configured and no failures. -/
theorem c2_witness :
    handleUpdate ⟨.int 7, .int 777⟩ ⟨fun _ => false, fun _ => "", 3, "r", "D"⟩
        ⟨none, some ⟨⟨5⟩, none, none, some ⟨500, "pl", "ch"⟩⟩, none⟩ =
      [.sendMessage (.int 5) (thankText ⟨500, "pl", "ch"⟩) none,
       .sendMessage (.int 777)
         (paymentLogText ⟨fun _ => false, fun _ => "", 3, "r", "D"⟩
           ⟨⟨5⟩, none, none, some ⟨500, "pl", "ch"⟩⟩ ⟨500, "pl", "ch"⟩) none] :=
  (c2_amended ⟨.int 7, .int 777⟩ ⟨fun _ => false, fun _ => "", 3, "r", "D"⟩
    ⟨⟨5⟩, none, none, some ⟨500, "pl", "ch"⟩⟩ ⟨500, "pl", "ch"⟩ none rfl).1 rfl rfl

/-- Whether an outbound call is an invoice creation. -/
def isInvoice : TgCall → Bool
  | .sendInvoice .. => true
  | _ => false

/-- A parsed donation amount is always a member of the allowed set. -/
theorem donateAmount_mem {data : String} {a : Int}
    (h : donateAmount data = some a) : a ∈ AMOUNTS := by
  unfold donateAmount at h
  rcases hp : (splitOnChar ':' data.toList).get? 1 with _ | part
  · rw [hp] at h; cases h
  · rw [hp] at h
    dsimp only at h
    rcases hn : jsStringToNum (String.mk part) with n | b | b | _
    · rw [hn] at h
      dsimp only at h
      by_cases hmem : n ∈ AMOUNTS
      · rw [if_pos hmem] at h; cases h; exact hmem
      · rw [if_neg hmem] at h; cases h
    · rw [hn] at h; dsimp only at h; cases h
    · rw [hn] at h; dsimp only at h; cases h
    · rw [hn] at h; dsimp only at h; cases h

/-- C3 as stated is false: a callback action with token `donate:999`
(`999` outside the allowed set) but no originating message is ignored with
no outbound call at all — in particular the triggering action is never
acknowledged, so the platform's pending-action indicator is not cleared. -/
theorem c3_counterexample :
    strStarts "donate:999" "donate:" = true ∧
    donateAmount "donate:999" = none ∧
    handleUpdate ⟨.int 0, .int 0⟩ ⟨fun _ => false, fun _ => "", 0, "", ""⟩
      ⟨none, none, some ⟨"cb1", some "donate:999", none⟩⟩ = [] :=
  ⟨rfl, rfl, rfl⟩

/-- C3 amended: for every callback action whose token starts with
`donate:` and whose amount is not a member of the allowed set, no
invoice-creation call is ever attempted; the rejection acknowledgment
(`answerCallbackQuery` with a user-visible reason, the only call made) is
sent whenever the action carries an originating message with a truthy chat
id — an action without one is ignored with no call at all. -/
theorem c3_amended (env : Env) (o : Oracle) (cq : CallbackQuery) (data : String)
    (hd : cq.data = some data) (hs : strStarts data "donate:" = true)
    (ha : donateAmount data = none) :
    (handleUpdate env o ⟨none, none, some cq⟩).all (fun c => !isInvoice c) = true ∧
    (∀ m, cq.message = some m → m.chat.id ≠ 0 →
      handleUpdate env o ⟨none, none, some cq⟩ =
        [.answerCallbackQuery cq.id (some "Неверная сумма")]) := by
  obtain ⟨cid, d, mo⟩ := cq
  cases hd
  cases mo with
  | none => exact ⟨rfl, by intro m hm; cases hm⟩
  | some m =>
    by_cases hz : m.chat.id = 0
    · constructor
      · simp only [handleUpdate, cqBranch, Option.getD_some]
        rw [if_neg (by intro hcond; exact hcond.2 hz)]
        rfl
      · intro m' hm' hz'
        cases hm'
        exact absurd hz hz'
    · have hcond : strStarts data "donate:" = true ∧ m.chat.id ≠ 0 := ⟨hs, hz⟩
      constructor
      · simp only [handleUpdate, cqBranch, Option.getD_some, if_pos hcond, ha]
        rfl
      · intro m' hm' _
        cases hm'
        simp only [handleUpdate, cqBranch, Option.getD_some, if_pos hcond, ha]

/-- Witness for C3's amended theorem at a concrete `donate:999` action
with an originating chat. -/
theorem c3_witness :
    handleUpdate ⟨.int 0, .int 0⟩ ⟨fun _ => false, fun _ => "", 0, "", ""⟩
        ⟨none, none, some ⟨"cb1", some "donate:999", some ⟨⟨5⟩, none, none, none⟩⟩⟩ =
      [.answerCallbackQuery "cb1" (some "Неверная сумма")] :=
  (c3_amended ⟨.int 0, .int 0⟩ ⟨fun _ => false, fun _ => "", 0, "", ""⟩
    ⟨"cb1", some "donate:999", some ⟨⟨5⟩, none, none, none⟩⟩ "donate:999"
    rfl rfl rfl).2 ⟨⟨5⟩, none, none, none⟩ rfl (by decide)

/-- C4 as stated is false: a callback action with the allowed token
`donate:1000` but no originating message is skipped entirely by the
`data.startsWith("donate:") && chatId` guard — no acknowledgment and no
invoice-creation call are attempted, so the handler does not "first
acknowledge then invoice" for every allowed-amount action. -/
theorem c4_counterexample :
    strStarts "donate:1000" "donate:" = true ∧
    donateAmount "donate:1000" = some 1000 ∧
    handleUpdate ⟨.int 0, .int 0⟩ ⟨fun _ => false, fun _ => "", 0, "", ""⟩
      ⟨none, none, some ⟨"cb1", some "donate:1000", none⟩⟩ = [] :=
  ⟨rfl, rfl, rfl⟩

/-- C4 amended: for every callback action `donate:<amount>` with
`<amount>` in the allowed set *that carries an originating message with a
truthy chat id* (an action without one is ignored with no call at all),
the handler first acknowledges the action with no text and then, when that
acknowledgment does not throw, makes exactly one invoice-creation call
with the freshly generated payload, empty provider token, currency
`"XTR"`, and exactly one price line item whose amount equals
`<amount>`. -/
theorem c4_allowed_amount_invoice (env : Env) (o : Oracle) (cq : CallbackQuery)
    (data : String) (m : Message) (a : Int)
    (hd : cq.data = some data) (hm : cq.message = some m) (hz : m.chat.id ≠ 0)
    (hs : strStarts data "donate:" = true) (ha : donateAmount data = some a)
    (hf : o.fail 0 = false) :
    handleUpdate env o ⟨none, none, some cq⟩ =
      [.answerCallbackQuery cq.id none,
       .sendInvoice m.chat.id "Поддержка проекта"
         ("Спасибо! Поддержка на " ++ jsIntToString a ++ " Stars.")
         (invoicePayload o a) "" "XTR" [⟨"Support", a⟩]] ∧
    a ∈ AMOUNTS := by
  refine ⟨?_, donateAmount_mem ha⟩
  obtain ⟨cid, d, mo⟩ := cq
  cases hd
  cases hm
  have hcond : strStarts data "donate:" = true ∧ m.chat.id ≠ 0 := ⟨hs, hz⟩
  simp [handleUpdate, cqBranch, Option.getD_some, if_pos hcond, ha, hf]

/-- Witness for C4 at the concrete action `donate:1000`. -/
theorem c4_witness :
    handleUpdate ⟨.int 0, .int 0⟩ ⟨fun _ => false, fun _ => "", 111, "ab", ""⟩
        ⟨none, none, some ⟨"cb1", some "donate:1000", some ⟨⟨5⟩, none, none, none⟩⟩⟩ =
      [.answerCallbackQuery "cb1" none,
       .sendInvoice 5 "Поддержка проекта" "Спасибо! Поддержка на 1000 Stars."
         "donate_1000_111_ab" "" "XTR" [⟨"Support", 1000⟩]] ∧
    (1000 : Int) ∈ AMOUNTS :=
  c4_allowed_amount_invoice ⟨.int 0, .int 0⟩ ⟨fun _ => false, fun _ => "", 111, "ab", ""⟩
    ⟨"cb1", some "donate:1000", some ⟨⟨5⟩, none, none, none⟩⟩ "donate:1000"
    ⟨⟨5⟩, none, none, none⟩ 1000 rfl rfl (by decide) rfl rfl rfl

/-- C6: a `/balance` or `/tx` text command from a non-privileged identifier
is answered with the fixed refusal message and no fetch is attempted; from
the configured privileged identifier the fetch is always attempted first,
and when it succeeds its stringified contents are sent as a text reply. -/
theorem c6_privileged_gate (env : Env) (o : Oracle) (msg : Message) (t : String)
    (cqa : Option CallbackQuery)
    (hsp : msg.successful_payment = none) (ht : msg.text = some t) (hne : t ≠ "")
    (hmenu : ¬(t = "/start" ∨ strStarts t "/donate" = true))
    (hcmd : (strStarts t "/balance" = true ∧ strStarts t "/tx" = false) ∨
      (strStarts t "/balance" = false ∧ strStarts t "/tx" = true)) :
    (isAdmin env.adminUserId (msg.fromUser.map User.id) = false →
      handleUpdate env o ⟨none, some msg, cqa⟩ =
        [.sendMessage (.int msg.chat.id) "⛔️ Только для админа" none]) ∧
    (isAdmin env.adminUserId (msg.fromUser.map User.id) = true →
      strStarts t "/balance" = true →
      handleUpdate env o ⟨none, some msg, cqa⟩ =
        if o.fail 0 then [.getMyStarBalance]
        else [.getMyStarBalance,
          .sendMessage (.int msg.chat.id) ("⭐️ Баланс Stars:\n" ++ o.result 0) none]) ∧
    (isAdmin env.adminUserId (msg.fromUser.map User.id) = true →
      strStarts t "/tx" = true →
      handleUpdate env o ⟨none, some msg, cqa⟩ =
        if o.fail 0 then [.getStarTransactions 10]
        else [.getStarTransactions 10,
          .sendMessage (.int msg.chat.id) ("🧾 Последние транзакции Stars:\n" ++ o.result 0) none]) := by
  have hbase : handleUpdate env o ⟨none, some msg, cqa⟩ = textBranch env o msg t := by
    simp only [handleUpdate, hsp, ht, if_neg hne]
  refine ⟨?_, ?_, ?_⟩
  · intro hadm
    rw [hbase]
    rcases hcmd with ⟨hb, _⟩ | ⟨hb, hx⟩
    · simp only [textBranch, if_neg hmenu, if_pos hb, if_pos hadm]
    · simp only [textBranch, if_neg hmenu, hb, Bool.false_eq_true, if_false, if_pos hx,
        if_pos hadm]
  · intro hadm hb
    rw [hbase]
    have hadm' : ¬(isAdmin env.adminUserId (msg.fromUser.map User.id) = false) := by
      rw [hadm]; exact fun hc => Bool.noConfusion hc
    simp only [textBranch, if_neg hmenu, if_pos hb, if_neg hadm']
  · intro hadm hx
    rw [hbase]
    have hadm' : ¬(isAdmin env.adminUserId (msg.fromUser.map User.id) = false) := by
      rw [hadm]; exact fun hc => Bool.noConfusion hc
    have hb : strStarts t "/balance" = false := by
      rcases hcmd with ⟨_, hx'⟩ | ⟨hb, _⟩
      · rw [hx'] at hx; exact absurd hx (fun hc => Bool.noConfusion hc)
      · exact hb
    simp only [textBranch, if_neg hmenu, hb, Bool.false_eq_true, if_false, if_pos hx,
      if_neg hadm']

/-- Witness for C6: the concrete refusal for a non-privileged user and the
concrete fetch-and-reply for the privileged user, on `/balance`. -/
theorem c6_witness :
    handleUpdate ⟨.int 7, .int 0⟩ ⟨fun _ => false, fun _ => "RES", 0, "", ""⟩
        ⟨none, some ⟨⟨5⟩, some ⟨8, none, none, none⟩, some "/balance", none⟩, none⟩ =
      [.sendMessage (.int 5) "⛔️ Только для админа" none] ∧
    handleUpdate ⟨.int 7, .int 0⟩ ⟨fun _ => false, fun _ => "RES", 0, "", ""⟩
        ⟨none, some ⟨⟨5⟩, some ⟨7, none, none, none⟩, some "/balance", none⟩, none⟩ =
      [.getMyStarBalance, .sendMessage (.int 5) "⭐️ Баланс Stars:\nRES" none] :=
  ⟨(c6_privileged_gate ⟨.int 7, .int 0⟩ ⟨fun _ => false, fun _ => "RES", 0, "", ""⟩
      ⟨⟨5⟩, some ⟨8, none, none, none⟩, some "/balance", none⟩ "/balance" none
      rfl rfl (by decide) (by decide) (Or.inl ⟨rfl, rfl⟩)).1 rfl,
   (c6_privileged_gate ⟨.int 7, .int 0⟩ ⟨fun _ => false, fun _ => "RES", 0, "", ""⟩
      ⟨⟨5⟩, some ⟨7, none, none, none⟩, some "/balance", none⟩ "/balance" none
      rfl rfl (by decide) (by decide) (Or.inl ⟨rfl, rfl⟩)).2.1 rfl rfl⟩

/-- C8: with the bot token present, a registration request whose shared
setup key does not match the configured value (also when none is
configured) performs zero outbound calls and is refused; with a matching
key, exactly one `setWebhook` call is attempted with the computed URL, and
on success the response reports that URL and the raw registration result.
The URL's host is the forwarded host header when present and nonempty,
else the direct host, and its protocol the forwarded protocol when present
and nonempty, else `https`. -/
theorem c8_registration (env : RegEnv) (req : RegRequest) (fail : Bool)
    (res : String) (tok : String)
    (htok : env.botToken = some tok) (hne : tok ≠ "") :
    (env.setupKey = "" ∨ req.queryKey.getD "" ≠ env.setupKey →
      setWebhookFn env req fail res = (.forbidden, [])) ∧
    (env.setupKey ≠ "" → req.queryKey.getD "" = env.setupKey →
      (setWebhookFn env req fail res).2 =
        [⟨computedUrl req,
          if env.webhookSecret = "" then none else some env.webhookSecret, true⟩] ∧
      (fail = false →
        (setWebhookFn env req fail res).1 =
          .success ("Webhook set OK\nURL: " ++ computedUrl req ++ "\nResult: " ++ res))) ∧
    (∀ fh, req.xForwardedHost = some fh → fh ≠ "" →
      jsOrOpt req.xForwardedHost req.host = some fh) ∧
    (req.xForwardedHost = none → jsOrOpt req.xForwardedHost req.host = req.host) := by
  refine ⟨?_, ?_, ?_, ?_⟩
  · intro hkey
    simp only [setWebhookFn, htok, if_neg hne, if_pos hkey]
  · intro hsk hkey
    have hcond : ¬(env.setupKey = "" ∨ req.queryKey.getD "" ≠ env.setupKey) := by
      rintro (hc | hc)
      · exact hsk hc
      · exact hc hkey
    cases fail with
    | false =>
      refine ⟨?_, fun _ => ?_⟩ <;>
        simp only [setWebhookFn, htok, if_neg hne, if_neg hcond, Bool.false_eq_true, if_false]
    | true =>
      refine ⟨?_, fun hc => Bool.noConfusion hc⟩
      simp only [setWebhookFn, htok, if_neg hne, if_neg hcond, if_true]
  · intro fh hfh hfne
    rw [hfh]
    simp only [jsOrOpt, if_neg hfne]
  · intro hfh
    rw [hfh]
    rfl

/-- Witness for C8: the concrete refusal on a mismatched key, and the
concrete call and report on a matching key with a forwarded host. -/
theorem c8_witness :
    setWebhookFn ⟨some "tok", "sec", "setup"⟩
        ⟨some "wrong", some "fwd.example", some "direct", none⟩ false "RAW" =
      (.forbidden, []) ∧
    (setWebhookFn ⟨some "tok", "sec", "setup"⟩
        ⟨some "setup", some "fwd.example", some "direct", none⟩ false "RAW").2 =
      [⟨"https://fwd.example/api/telegram", some "sec", true⟩] ∧
    (setWebhookFn ⟨some "tok", "sec", "setup"⟩
        ⟨some "setup", some "fwd.example", some "direct", none⟩ false "RAW").1 =
      .success "Webhook set OK\nURL: https://fwd.example/api/telegram\nResult: RAW" :=
  ⟨(c8_registration ⟨some "tok", "sec", "setup"⟩
      ⟨some "wrong", some "fwd.example", some "direct", none⟩ false "RAW" "tok"
      rfl (by decide)).1 (Or.inr (by decide)),
   ((c8_registration ⟨some "tok", "sec", "setup"⟩
      ⟨some "setup", some "fwd.example", some "direct", none⟩ false "RAW" "tok"
      rfl (by decide)).2.1 (by decide) rfl).1,
   ((c8_registration ⟨some "tok", "sec", "setup"⟩
      ⟨some "setup", some "fwd.example", some "direct", none⟩ false "RAW" "tok"
      rfl (by decide)).2.1 (by decide) rfl).2 rfl⟩

/-- C9: an inbound event satisfying none of the recognition rules — no
pre-authorization query, no successful payment, no matching text command,
no `donate:` action — is classified `unrecognized` (the classifier, a
total function, cannot throw) and produces no outbound call at all. -/
theorem c9_unrecognized_silent (env : Env) (o : Oracle) (u : Update)
    (h1 : u.pre_checkout_query = none)
    (h2 : ∀ m, u.message = some m → m.successful_payment = none)
    (h3 : ∀ m t, u.message = some m → m.text = some t →
      ¬(t = "/start" ∨ strStarts t "/donate" = true ∨ strStarts t "/balance" = true ∨
        strStarts t "/tx" = true))
    (h4 : ∀ cq, u.callback_query = some cq →
      strStarts (cq.data.getD "") "donate:" = false) :
    classify u = .unrecognized ∧ handleUpdate env o u = [] := by
  obtain ⟨p, mo, cqa⟩ := u
  cases h1
  have hcq : classifyCq cqa = .unrecognized ∧ cqBranch o cqa = [] := by
    cases cqa with
    | none => exact ⟨rfl, rfl⟩
    | some cq =>
      have hd := h4 cq rfl
      obtain ⟨cid, d, cmo⟩ := cq
      cases cmo with
      | none => exact ⟨rfl, rfl⟩
      | some m =>
        have hcond : ¬(strStarts ((d.getD "" : String)) "donate:" = true ∧ m.chat.id ≠ 0) := by
          rintro ⟨hc, -⟩
          rw [hd] at hc
          exact Bool.noConfusion hc
        exact ⟨by simp only [classifyCq, if_neg hcond], by simp only [cqBranch, if_neg hcond]⟩
  cases mo with
  | none => exact ⟨hcq.1, hcq.2⟩
  | some msg =>
    have hsp := h2 msg rfl
    cases htx : msg.text with
    | none =>
      refine ⟨?_, ?_⟩
      · simp only [classify, hsp, htx]
        exact hcq.1
      · simp only [handleUpdate, hsp, htx]
        exact hcq.2
    | some t =>
      have hno := h3 msg t rfl htx
      by_cases hte : t = ""
      · refine ⟨?_, ?_⟩
        · simp only [classify, hsp, htx, if_pos hte]
          exact hcq.1
        · simp only [handleUpdate, hsp, htx, if_pos hte]
          exact hcq.2
      · have hm : ¬(t = "/start" ∨ strStarts t "/donate" = true) := by
          rintro (hc | hc)
          · exact hno (Or.inl hc)
          · exact hno (Or.inr (Or.inl hc))
        have hb : strStarts t "/balance" = false := by
          cases hbc : strStarts t "/balance" with
          | false => rfl
          | true => exact absurd (Or.inr (Or.inr (Or.inl hbc))) hno
        have hx : strStarts t "/tx" = false := by
          cases hxc : strStarts t "/tx" with
          | false => rfl
          | true => exact absurd (Or.inr (Or.inr (Or.inr hxc))) hno
        refine ⟨?_, ?_⟩
        · simp only [classify, hsp, htx, if_neg hte, if_neg hm, hb, hx,
            Bool.false_eq_true, if_false]
        · simp only [handleUpdate, hsp, htx, if_neg hte, textBranch, if_neg hm, hb, hx,
            Bool.false_eq_true, if_false]

/-- Witness for C9 at a concrete housekeeping update carrying none of the
recognized variants. -/
theorem c9_witness :
    classify ⟨none, none, none⟩ = .unrecognized ∧
    handleUpdate ⟨.int 0, .int 0⟩ ⟨fun _ => false, fun _ => "", 0, "", ""⟩
      ⟨none, none, none⟩ = [] :=
  c9_unrecognized_silent ⟨.int 0, .int 0⟩ ⟨fun _ => false, fun _ => "", 0, "", ""⟩
    ⟨none, none, none⟩ rfl (fun _ h => Option.noConfusion h)
    (fun _ _ h => Option.noConfusion h) (fun _ h => Option.noConfusion h)

end TgStars
